import Mathlib

/-!
Shallow embedding of the Aristotle adaptive validation-and-session engine
(`src/components/AdaptivePracticeEngine.tsx`, `src/components/ExamSimulator.tsx`,
`src/components/AIPoweredWhiteboard.tsx`).

JavaScript strings are modelled as Lean `String` (a list of characters);
JavaScript `undefined`/`null` object fields are modelled as `Option`;
JavaScript numbers used for times / percentages are modelled as `ℚ`;
external, non-deterministic effects (the network round-trip to the judgment
service, `Math.random()`, the wall clock) are passed in as explicit
parameters, so every handler becomes a pure state-transition function.
-/

namespace Aristotle

/-- Models JavaScript `String.prototype.includes`: `jsIncludes s sub` is true
iff `sub` occurs as a contiguous substring of `s`. -/
def jsIncludes (s sub : String) : Bool :=
  decide (sub.data <:+: s.data)

/-- Models JavaScript `String.prototype.toLowerCase` (character-wise). -/
def jsToLower (s : String) : String :=
  ⟨s.data.map Char.toLower⟩

/-- Models JavaScript `String.prototype.trim`: strips leading and trailing
whitespace. -/
def jsTrim (s : String) : String :=
  ⟨((s.data.dropWhile Char.isWhitespace).reverse.dropWhile Char.isWhitespace).reverse⟩

/-- Models the JavaScript idiom `x || d` on an optional string field parsed
from JSON: `undefined`, `null` and the empty string are falsy and give `d`. -/
def jsOrStr (x : Option String) (d : String) : String :=
  match x with
  | some s => if s = "" then d else s
  | none => d

/-- Difficulty tiers of the practice engine, ordered easy < medium < advanced
(source `AdaptivePracticeEngine.tsx`, `difficulty` state). -/
inductive Difficulty
  | easy
  | medium
  | advanced
deriving DecidableEq

/-- Question type (source: `'mcq' | 'written'`). -/
inductive QType
  | mcq
  | written
deriving DecidableEq

/-- Source `interface Question` of `AdaptivePracticeEngine.tsx` (the numeric
`Date.now()` id is kept as a string as in the source). -/
structure Question where
  id : String
  text : String
  qtype : QType
  difficulty : Difficulty
  topic : String
  options : List String
  correctAnswer : Option String
  expectedSteps : List String
deriving DecidableEq

/-- The payload fields a generated question is built from (the JSON object the
LLM returns, or the predefined fallback entry): `generateQuestion` stamps
`type`, `difficulty` and `topic` from its own arguments in both the success
and the fallback path. -/
structure RawQuestion where
  id : String
  text : String
  options : List String
  correctAnswer : Option String
  expectedSteps : List String
deriving DecidableEq

/-- Both `generateQuestion` and `getFallbackQuestion` return a question whose
`difficulty` field is exactly the `difficulty` argument passed in. -/
def mkQuestion (raw : RawQuestion) (topic : String) (d : Difficulty) (ty : QType) : Question :=
  { id := raw.id
    text := raw.text
    qtype := ty
    difficulty := d
    topic := topic
    options := raw.options
    correctAnswer := raw.correctAnswer
    expectedSteps := raw.expectedSteps }

/-- Result shape of `validateAnswer` in `AdaptivePracticeEngine.tsx`.  On the
success path the function returns `JSON.parse(resultText)` unchecked, so any
field may be absent (`undefined`): absent fields are modelled as `none`. -/
structure EngineVerdict where
  isCorrect : Option Bool
  feedback : Option String
  explanation : Option String
deriving DecidableEq

/-- Outcome of the engine's judgment round-trip in `validateAnswer`:
`fetchError` covers a rejected fetch, a network failure and a non-ok HTTP
status (all throw inside the `try`), `parseError` covers `JSON.parse`
throwing on a malformed response text, and `parsed v` is a successful
`JSON.parse` whose (duck-typed) fields are `v`. -/
inductive EngineOracleOutcome
  | fetchError
  | parseError
  | parsed (v : EngineVerdict)
deriving DecidableEq

/-- Source `validateAnswer` (`AdaptivePracticeEngine.tsx` lines 200-238):
on success the parsed payload is returned as-is; any throw is caught and the
local fallback runs: exact match against `correctAnswer` for MCQ, else the
lowercased answer must contain the substring `correct`. -/
def validateAnswer (q : Question) (answer : String) : EngineOracleOutcome → EngineVerdict
  | .parsed v => v
  | _ =>
    let isCorrect : Bool :=
      if q.qtype = QType.mcq then decide (some answer = q.correctAnswer)
      else jsIncludes (jsToLower answer) ("correct")
    { isCorrect := some isCorrect
      feedback := some (if isCorrect then "Great job!" else "Try again!")
      explanation := some ("Check your work carefully.") }

/-- Session phase of the practice engine (source `sessionPhase` state). -/
inductive EnginePhase
  | setup
  | practicing
  | completed
deriving DecidableEq

/-- One recorded answer (source `PracticeSession.answers` element; the raw
`validation.isCorrect` value is stored, hence `Option Bool`). -/
structure EngineAnswer where
  questionId : String
  answer : String
  isCorrect : Option Bool
  timeSpent : ℚ
  difficulty : Difficulty
deriving DecidableEq

/-- Combined state of the practice engine: the `PracticeSession` object plus
the React component state that drives the session (`sessionPhase`,
`difficulty`, `currentQuestion`, `performance`).  UI-only fields (canvas,
toasts, text boxes) are omitted; the submitted answer text and per-item
elapsed time enter `submitAnswer` as parameters instead. -/
structure EngineState where
  phase : EnginePhase
  topic : String
  questionType : QType
  difficulty : Difficulty
  currentQuestion : Option Question
  questions : List Question
  answers : List EngineAnswer
  totalQuestions : Nat
  correctAnswers : Nat
  averageTime : ℚ
  accuracy : ℚ
  difficultyProgression : List Difficulty
  currentStreak : Nat
deriving DecidableEq

/-- Source `submitAnswer` (`AdaptivePracticeEngine.tsx` lines 270-340) as a
state transition.  `answer` is the submitted text, `timeSpent` the elapsed
seconds, `outcome` the judgment round-trip result and `nextRaw` the payload
the next `generateQuestion` call would produce.  Faithful details:
* the guard only checks that a current question / session / start time exist
  (it never inspects `sessionPhase`);
* an answer whose trim is empty only shows a toast and returns;
* `accuracy` is `(correct / total) * 100` over answer counts;
* `averageTime` is `(previousAverage + timeSpent) / 2`;
* difficulty adaptation jumps directly to `advanced` / `easy`;
* the `generateQuestion` call for the next item reads the stale `difficulty`
  variable captured by the closure (React state updates are deferred), so the
  next question is stamped with the pre-adaptation tier;
* `endSession` (reached when the new total is ≥ 10) sets the phase to
  completed and leaves `currentQuestion` untouched. -/
def engineSubmit (s : EngineState) (answer : String) (timeSpent : ℚ)
    (outcome : EngineOracleOutcome) (nextRaw : RawQuestion) : EngineState :=
  match s.currentQuestion with
  | none => s
  | some q =>
    if jsTrim answer = "" then s
    else
      let v := validateAnswer q answer outcome
      let inc : Nat := if v.isCorrect = some true then 1 else 0
      let total' := s.totalQuestions + 1
      let correct' := s.correctAnswers + inc
      let base : EngineState :=
        { s with
          questions := s.questions ++ [q]
          answers := s.answers ++
            [{ questionId := q.id, answer := answer, isCorrect := v.isCorrect,
               timeSpent := timeSpent, difficulty := s.difficulty }]
          totalQuestions := total'
          correctAnswers := correct'
          averageTime := (s.averageTime + timeSpent) / 2
          accuracy := ((correct' : ℚ) / (total' : ℚ)) * 100
          difficultyProgression := s.difficultyProgression ++ [s.difficulty]
          currentStreak := if v.isCorrect = some true then s.currentStreak + 1 else 0
          difficulty :=
            if ((correct' : ℚ) / (total' : ℚ)) * 100 > 80 ∧ s.difficulty ≠ Difficulty.advanced then
              Difficulty.advanced
            else if ((correct' : ℚ) / (total' : ℚ)) * 100 < 60 ∧ s.difficulty ≠ Difficulty.easy then
              Difficulty.easy
            else s.difficulty }
      if total' ≥ 10 then
        { base with phase := EnginePhase.completed }
      else
        let nextQ := mkQuestion nextRaw s.topic s.difficulty s.questionType
        { base with currentQuestion := some nextQ }

/-- Source `startSession`: a fresh session in the practicing phase with zeroed
performance counters; `firstQ` is the first generated question. -/
def engineStart (topic : String) (qt : QType) (d : Difficulty) (firstQ : Question) : EngineState :=
  { phase := EnginePhase.practicing
    topic := topic
    questionType := qt
    difficulty := d
    currentQuestion := some firstQ
    questions := []
    answers := []
    totalQuestions := 0
    correctAnswers := 0
    averageTime := 0
    accuracy := 0
    difficultyProgression := []
    currentStreak := 0 }

/-! ### AIPoweredWhiteboard: step validation pipeline and remediation monitor -/

/-- Error classification carried by a whiteboard verdict.  The source compares
plain strings; the values appearing in the source are the strings `syntax`
(constructor `syntaxError`), `calculation`, `conceptual`, and ad-hoc invented
tags such as `ocr-fallback` (constructor `invented`). -/
inductive ErrorKind
  | syntaxError
  | calculation
  | conceptual
  | invented (tag : String)
deriving DecidableEq

/-- Source `interface ValidationResult` (`AIPoweredWhiteboard.tsx`).  Fields
are duck-typed in the source and can hold `undefined`/`null`; `none` models
an absent or null field. -/
structure ValidationResult where
  isCorrect : Option Bool
  errorType : Option ErrorKind
  feedback : Option String
  encouragement : Option String
deriving DecidableEq

/-- Source `validateStep` (`AIPoweredWhiteboard.tsx` lines 814-863), the local
fallback validator.  The unused `numbers` regex extraction of the source is
omitted (its value is never read).  The special-cased rules fire only when the
question text contains the worked example `2x = 7 - (4)^2 + 16`; otherwise a
step shorter than 3 characters is a syntax error and anything else passes. -/
def validateStep (step questionText : String) : ValidationResult :=
  let stepLower := jsTrim (jsToLower step)
  if jsIncludes questionText ("2x = 7 - (4)^2 + 16") then
    if jsIncludes stepLower ("2x = 7 - 16 + 16") then
      { isCorrect := some true
        errorType := none
        feedback := some ("Perfect! You correctly calculated (4)² = 16 and maintained the order of operations.")
        encouragement := some ("Great start! Keep going with the next step.") }
    else if jsIncludes stepLower ("2x = 9 + 16") || jsIncludes stepLower ("2x = 9") then
      { isCorrect := some false
        errorType := some ErrorKind.calculation
        feedback := some ("Calculation error: 7 - 16 = -9, not 9. Remember that 7 - 16 gives a negative result.")
        encouragement := some ("Don\x27t worry, calculation errors happen! Try redoing the subtraction step.") }
    else if jsIncludes stepLower ("2x = 7 + 16 + 16") then
      { isCorrect := some false
        errorType := some ErrorKind.conceptual
        feedback := some ("Conceptual error: You need to calculate (4)² first, then apply the negative sign. (4)² = 16, so -(4)² = -16.")
        encouragement := some ("Good effort! Remember the order of operations: parentheses and exponents first.") }
    else if step.length < 3 then
      { isCorrect := some false
        errorType := some ErrorKind.syntaxError
        feedback := some ("Please write a more complete step showing your work.")
        encouragement := some ("Take your time and show each calculation clearly.") }
    else
      { isCorrect := some true
        errorType := none
        feedback := some ("This step looks good! Make sure to double-check your arithmetic.")
        encouragement := some ("You\x27re doing well! Continue with your solution.") }
  else if step.length < 3 then
    { isCorrect := some false
      errorType := some ErrorKind.syntaxError
      feedback := some ("Please write a more complete step showing your work.")
      encouragement := some ("Take your time and show each calculation clearly.") }
  else
    { isCorrect := some true
      errorType := none
      feedback := some ("This step looks good! Make sure to double-check your arithmetic.")
      encouragement := some ("You\x27re doing well! Continue with your solution.") }

/-- Outcome of the AI round-trip inside `validateStepWithAI`:
* `apiFailure` — missing API key, fetch rejection, or non-ok HTTP status; the
  function throws (and the caller falls back to `validateStep`);
* `parsedJson` — `JSON.parse` of the (possibly code-fenced) response text
  succeeded; the duck-typed fields are carried raw, where the `errorType`
  field distinguishes absent (`none`) from explicit null (`some none`);
* `parseFailed` — `JSON.parse` threw; `resultText` is the raw response text
  used for lexical inference. -/
inductive AIOutcome
  | apiFailure
  | parsedJson (isCorrect : Option Bool) (errorType : Option (Option ErrorKind))
      (feedback : Option String) (encouragement : Option String)
  | parseFailed (resultText : String)
deriving DecidableEq

/-- Source lexical inference on an unparseable response text: the lowercased
text contains `correct` or `right`. -/
def lexicalCorrect (text : String) : Bool :=
  jsIncludes (jsToLower text) ("correct") || jsIncludes (jsToLower text) ("right")

/-- Models `resultText.slice(0, 200) + (resultText.length > 200 ? '...' : '')`. -/
def jsSlice200 (text : String) : String :=
  String.mk (text.data.take 200) ++ (if 200 < text.length then "..." else "")

/-- Source `validateStepWithAI` (`AIPoweredWhiteboard.tsx` lines 866-936).
The step, question and previous steps only shape the prompt, which is
absorbed into the abstract `AIOutcome`; a throw is modelled as
`Except.error`.  On a parsed payload the source coerces
`result.isCorrect || false` and `result.errorType || null` and substitutes
default strings for falsy feedback fields. -/
def validateStepWithAI (_step _question : String) (_previousSteps : List String) :
    AIOutcome → Except Unit ValidationResult
  | .apiFailure => Except.error ()
  | .parsedJson ic et fb en =>
    Except.ok
      { isCorrect := some (ic.getD false)
        errorType := et.getD none
        feedback := some (jsOrStr fb ("I couldn\x27t analyze this step properly."))
        encouragement := some (jsOrStr en ("Keep trying! You\x27re learning.")) }
  | .parseFailed text =>
    Except.ok
      { isCorrect := some (lexicalCorrect text)
        errorType := if lexicalCorrect text then none else some ErrorKind.calculation
        feedback := some (jsSlice200 text)
        encouragement := some ("Keep working through the problem step by step!") }

/-- Verdict confidence in the sense of the spec (§4.1): a well-formed parsed
payload is an oracle verdict; lexical inference over unparseable text and the
local `validateStep` fallback are heuristic.  The source stores no confidence
field — this classifies the code path that produced a verdict. -/
inductive Confidence
  | oracle
  | heuristic
deriving DecidableEq

/-- Confidence of the verdict produced for a given AI outcome (`apiFailure`
routes to the local `validateStep` fallback, `parseFailed` to lexical
inference — both heuristic per spec §4.1). -/
def confidenceOf : AIOutcome → Confidence
  | .parsedJson _ _ _ _ => Confidence.oracle
  | _ => Confidence.heuristic

/-- Source `interface Step` (`AIPoweredWhiteboard.tsx`); the `Date.now()` id
and timestamp are omitted (never read by the logic). -/
structure Step where
  content : String
  validation : Option ValidationResult
deriving DecidableEq

/-- Whiteboard component state relevant to validation and remediation:
the question text, the typed current step, the growing steps log and the
`showExplanation` flag (the remediation-trigger observable). -/
structure WBState where
  question : String
  currentStep : String
  steps : List Step
  showExplanation : Bool
deriving DecidableEq

/-- The typed-path pipeline: `validateStepWithAI`, falling back to the local
`validateStep` when it throws (the `catch` branch of `handleStepValidation`).
This function is total: every outcome yields a verdict. -/
def pipelineVerdict (step question : String) (prev : List String) (o : AIOutcome) : ValidationResult :=
  match validateStepWithAI step question prev o with
  | Except.ok v => v
  | Except.error _ => validateStep step question

/-- Source `handleStepValidation` (`AIPoweredWhiteboard.tsx` lines 1013-1067)
as a state transition.  An empty (whitespace-only) current step only shows a
toast and returns — nothing is recorded and no external call is made (the
transition ignores `o`).  Otherwise the pipeline verdict is appended to the
steps log and the input box is cleared. -/
def handleStepValidation (s : WBState) (o : AIOutcome) : WBState :=
  if jsTrim s.currentStep = "" then s
  else
    let v := pipelineVerdict s.currentStep s.question (s.steps.map Step.content) o
    { s with steps := s.steps ++ [{ content := s.currentStep, validation := some v }]
             currentStep := "" }

/-- Raw fields of a parsed VLM response in `handleHandwrittenStepSubmit`
(duck-typed, stored into the step unchecked). -/
structure VLMResult where
  extractedStep : String
  isCorrect : Option Bool
  errorType : Option ErrorKind
  feedback : Option String
  encouragement : Option String
deriving DecidableEq

/-- Outcome of `validateHandwrittenStepWithVLM`: a parsed response or a throw
(fetch failure, non-ok status, or response parse error). -/
inductive VLMOutcome
  | ok (r : VLMResult)
  | failure
deriving DecidableEq

/-- The hard-coded OCR fallback result used when the VLM call throws
(`AIPoweredWhiteboard.tsx` lines 1247-1259). -/
def ocrFallbackResult : VLMResult :=
  { extractedStep := "OCR extracted step (implement with Tesseract.js)"
    isCorrect := some false
    errorType := some (ErrorKind.invented ("ocr-fallback"))
    feedback := some ("VLM failed, used OCR fallback. Please check your step.")
    encouragement := some ("Try to write more clearly!") }

/-- The `result` variable of `handleHandwrittenStepSubmit` after the
try/catch: the VLM payload on success, the OCR fallback otherwise. -/
def vlmResolve : VLMOutcome → VLMResult
  | .ok r => r
  | .failure => ocrFallbackResult

/-- The predicate of the source filter
`steps.filter(s => s.validation?.errorType === 'conceptual')`. -/
def isConceptualStep (st : Step) : Bool :=
  match st.validation with
  | some v => decide (v.errorType = some ErrorKind.conceptual)
  | none => false

/-- `conceptualErrors` of `handleHandwrittenStepSubmit` line 1273: the number
of conceptual-error steps in a steps log (cumulative, not consecutive). -/
def conceptualCount (steps : List Step) : Nat :=
  (steps.filter isConceptualStep).length

/-- The remediation-trigger condition of `handleHandwrittenStepSubmit` lines
1272-1277: the current result is conceptual and the log captured by the
closure (the log *before* the current step is appended) already contains at
least one conceptual step.  There is no confidence check and no reset. -/
def remediationFires (s : WBState) (o : VLMOutcome) : Bool :=
  decide ((vlmResolve o).errorType = some ErrorKind.conceptual ∧ 1 ≤ conceptualCount s.steps)

/-- Source `handleHandwrittenStepSubmit` (`AIPoweredWhiteboard.tsx` lines
1238-1278) as a state transition (the canvas capture is absorbed into the
outcome).  The raw result fields are stored unchecked; `setShowExplanation(true)`
runs exactly when `remediationFires`. -/
def handleHandwrittenStepSubmit (s : WBState) (o : VLMOutcome) : WBState :=
  let result := vlmResolve o
  { s with
    steps := s.steps ++
      [{ content := result.extractedStep
         validation := some { isCorrect := result.isCorrect
                              errorType := result.errorType
                              feedback := result.feedback
                              encouragement := result.encouragement } }]
    showExplanation := if remediationFires s o then true else s.showExplanation }

/-! ### ExamSimulator: session state machine, timer and fallback validation -/

/-- Source `examPhase` state (`'setup' | 'exam' | 'completed'`). -/
inductive ExamPhase
  | setup
  | exam
  | completed
deriving DecidableEq

/-- Source `interface ExamQuestion`, restricted to the fields the submit /
timer logic actually reads (`timeLimit`, `options`, `expectedSteps`, `topic`
and `difficulty` are carried by the source interface but never read by
`submitAnswer`, `endExam` or the timer). -/
structure ExamQuestion where
  id : String
  text : String
  qtype : QType
  marks : Nat
  correctAnswer : Option String
deriving DecidableEq

/-- One recorded exam answer (source `ExamSession.answers` element). -/
structure ExamAnswer where
  questionId : String
  answer : String
  timeSpent : ℚ
  isCorrect : Bool
  marksObtained : Nat
deriving DecidableEq

/-- Combined exam-simulator state: the `ExamSession` object plus the React
state driving it (`examPhase`, `currentQuestionIndex`, `timeRemaining` in
seconds, `isPaused`).  `currentSession` and `questionStartTime` are null
exactly in the setup phase. -/
structure ExamState where
  phase : ExamPhase
  questions : List ExamQuestion
  currentQuestionIndex : Nat
  answers : List ExamAnswer
  totalMarks : Nat
  obtainedMarks : Nat
  accuracy : ℚ
  averageTime : ℚ
  timeRemaining : Int
  isPaused : Bool
deriving DecidableEq

/-- The "simple validation" of `ExamSimulator.submitAnswer` (lines 300-305):
exact match against `correctAnswer` for MCQ; for written answers, the
lowercased answer contains `correct` **or a coin flip** — `coin` models the
source's `Math.random() > 0.5`. -/
def examIsCorrect (q : ExamQuestion) (answer : String) (coin : Bool) : Bool :=
  if q.qtype = QType.mcq then decide (some answer = q.correctAnswer)
  else jsIncludes (jsToLower answer) ("correct") || coin

/-- Source `submitAnswer` (`ExamSimulator.tsx` lines 286-336) as a state
transition.  Faithful details: the guard only checks that the session and the
question start time exist (both are null exactly in setup — the phase itself
is never inspected, so a call in the completed phase proceeds); an answer
whose trim is empty only shows a toast; `accuracy` is
`(obtainedMarks / totalMarks) * 100`; `averageTime` is
`(previousAverage + timeSpent) / 2`; answering the last question calls
`endExam`.  (When the index is out of range the source would dereference
`undefined` — unreachable for a started session — modelled as a no-op.) -/
def examSubmit (s : ExamState) (answer : String) (timeSpent : ℚ) (coin : Bool) : ExamState :=
  if s.phase = ExamPhase.setup then s
  else
    match s.questions.get? s.currentQuestionIndex with
    | none => s
    | some q =>
      if jsTrim answer = "" then s
      else
        let isC := examIsCorrect q answer coin
        let marks := if isC then q.marks else 0
        let s' : ExamState :=
          { s with
            answers := s.answers ++
              [{ questionId := q.id, answer := answer, timeSpent := timeSpent,
                 isCorrect := isC, marksObtained := marks }]
            obtainedMarks := s.obtainedMarks + marks
            accuracy := (((s.obtainedMarks + marks : Nat) : ℚ) / (s.totalMarks : ℚ)) * 100
            averageTime := (s.averageTime + timeSpent) / 2 }
        if s.currentQuestionIndex + 1 < s.questions.length then
          { s' with currentQuestionIndex := s.currentQuestionIndex + 1 }
        else
          { s' with phase := ExamPhase.completed }

/-- One tick of the source timer effect (`ExamSimulator.tsx` lines 136-150):
the interval only runs while the phase is exam, time remains and the session
is not paused; a tick at `prev <= 1` calls `endExam()` and stores exactly 0,
any other tick decrements by one second. -/
def timerTick (s : ExamState) : ExamState :=
  if s.phase = ExamPhase.exam ∧ 0 < s.timeRemaining ∧ s.isPaused = false then
    if s.timeRemaining ≤ 1 then
      { s with phase := ExamPhase.completed, timeRemaining := 0 }
    else
      { s with timeRemaining := s.timeRemaining - 1 }
  else s

/-! ### Spec-side definitions (for comparison with the source behaviour) -/

/-- Spec §4.3 escalation in the ordered set easy < medium < advanced:
"escalate one tier".  Defined from the spec's words, to compare with the
source's adaptation. -/
def specOneStepUp : Difficulty → Difficulty
  | .easy => .medium
  | .medium => .advanced
  | .advanced => .advanced

/-- Spec §4.5 "true running mean over all recorded attempts": the sum of the
per-attempt elapsed times divided by their number.  Defined from the spec's
words, to compare with the source statistic. -/
def specTrueMean (ts : List ℚ) : ℚ :=
  ts.sum / (ts.length : ℚ)

/-- The statistic the source actually maintains: start at 0 and fold
`(previousAverage + newSample) / 2` over the recorded times. -/
def halvingAvg (ts : List ℚ) : ℚ :=
  ts.foldl (fun a t => (a + t) / 2) 0

/-! ### Concrete states used by witnesses and counterexamples -/

/-- The source's predefined fallback MCQ payload for quadratic equations. -/
def engineRawQ : RawQuestion :=
  { id := "q1"
    text := "What is the solution to x² - 4 = 0?"
    options := ["x = ±2", "x = ±4", "x = 2", "x = -2"]
    correctAnswer := some "x = ±2"
    expectedSteps := [] }

/-- The fallback question issued at the easy tier. -/
def engineQEasy : Question :=
  mkQuestion engineRawQ ("quadratic-equations") Difficulty.easy QType.mcq

/-- The fallback question issued at the advanced tier. -/
def engineQAdv : Question :=
  mkQuestion engineRawQ ("quadratic-equations") Difficulty.advanced QType.mcq

/-- A fresh practice session on quadratic equations at the easy tier. -/
def engineRun0 : EngineState :=
  engineStart ("quadratic-equations") QType.mcq Difficulty.easy engineQEasy

/-- One submission of the correct MCQ answer, instantaneous, with the
judgment service unreachable (so the deterministic fallback judges it). -/
def engineStepCorrect (s : EngineState) : EngineState :=
  engineSubmit s ("x = ±2") 0 EngineOracleOutcome.fetchError engineRawQ

/-- The recorded answer produced by `engineStepCorrect` at tier `d`. -/
def engineAns (d : Difficulty) : EngineAnswer :=
  { questionId := "q1", answer := "x = ±2", isCorrect := some true,
    timeSpent := 0, difficulty := d }

/-- The state after `k` all-correct instantaneous submissions from
`engineRun0` (valid for `1 ≤ k ≤ 10`): accuracy is pinned at 100, the tier
jumped to advanced at the first verdict, the first *two* issued questions are
easy (the second because the next-question call reads the stale tier), and
the 10th submission completes the session. -/
def engineChain (k : Nat) : EngineState :=
  { phase := if k ≤ 9 then EnginePhase.practicing else EnginePhase.completed
    topic := "quadratic-equations"
    questionType := QType.mcq
    difficulty := Difficulty.advanced
    currentQuestion := some (if k ≤ 1 then engineQEasy else engineQAdv)
    questions := engineQEasy :: (if k ≤ 1 then [] else engineQEasy :: List.replicate (k - 2) engineQAdv)
    answers := engineAns Difficulty.easy :: List.replicate (k - 1) (engineAns Difficulty.advanced)
    totalQuestions := k
    correctAnswers := k
    averageTime := 0
    accuracy := 100
    difficultyProgression := Difficulty.easy :: List.replicate (k - 1) Difficulty.advanced
    currentStreak := k }

/-- Ten all-correct submissions from a fresh session. -/
def engineRun10 : EngineState :=
  engineStepCorrect (engineStepCorrect (engineStepCorrect (engineStepCorrect
    (engineStepCorrect (engineStepCorrect (engineStepCorrect (engineStepCorrect
      (engineStepCorrect (engineStepCorrect engineRun0)))))))))

/-- The source's fallback written exam question (no `correctAnswer`). -/
def examWrittenQ : ExamQuestion :=
  { id := "q8"
    text := "Solve the quadratic equation: x² - 9 = 0"
    qtype := QType.written
    marks := 3
    correctAnswer := none }

/-- A running 30-minute unit test on its first question. -/
def examDemo : ExamState :=
  { phase := ExamPhase.exam
    questions := [examWrittenQ]
    currentQuestionIndex := 0
    answers := []
    totalMarks := 25
    obtainedMarks := 0
    accuracy := 0
    averageTime := 0
    timeRemaining := 1800
    isPaused := false }

/-- A whiteboard on the worked example question with the conceptual-error
step typed in, before any step has been recorded. -/
def wbConceptual : WBState :=
  { question := "2x = 7 - (4)^2 + 16"
    currentStep := "2x = 7 + 16 + 16"
    steps := []
    showExplanation := false }

/-- A whiteboard with a whitespace-only current step. -/
def wbBlankStep : WBState :=
  { question := "Solve: 2x + 3 = 7"
    currentStep := " "
    steps := []
    showExplanation := false }

/-- A parsed VLM response classifying the handwritten step as a conceptual
error. -/
def vlmConceptual : VLMResult :=
  { extractedStep := "2x = 7 + 16 + 16"
    isCorrect := some false
    errorType := some ErrorKind.conceptual
    feedback := some ("Order of operations issue.")
    encouragement := some ("Keep going!") }

/-! ### Helper lemmas -/

/-- Appending a step adds one to the conceptual count exactly when the new
step is conceptual. -/
theorem conceptualCount_append (xs : List Step) (st : Step) :
    conceptualCount (xs ++ [st]) = conceptualCount xs + (if isConceptualStep st then 1 else 0) := by
  simp only [conceptualCount, List.filter_append, List.length_append]
  by_cases h : isConceptualStep st <;> simp [h]

/-- The halving fold over one more sample. -/
theorem halvingAvg_append (ts : List ℚ) (t : ℚ) :
    halvingAvg (ts ++ [t]) = (halvingAvg ts + t) / 2 := by
  simp [halvingAvg, List.foldl_append]

/-- First all-correct submission from a fresh session. -/
theorem engineChain_one : engineStepCorrect engineRun0 = engineChain 1 := by
  simp [engineStepCorrect, engineSubmit, engineChain, engineRun0, engineStart, engineQEasy,
    engineQAdv, mkQuestion, engineRawQ, engineAns, validateAnswer, jsTrim, jsToLower, jsIncludes]
  norm_num

/-- Second all-correct submission. -/
theorem engineChain_step1 : engineStepCorrect (engineChain 1) = engineChain 2 := by
  simp [engineStepCorrect, engineSubmit, engineChain, engineQEasy, engineQAdv, mkQuestion,
    engineRawQ, engineAns, validateAnswer, jsTrim, jsToLower, jsIncludes]
  norm_num

/-- Third all-correct submission. -/
theorem engineChain_step2 : engineStepCorrect (engineChain 2) = engineChain 3 := by
  simp [engineStepCorrect, engineSubmit, engineChain, engineQEasy, engineQAdv, mkQuestion,
    engineRawQ, engineAns, validateAnswer, jsTrim, jsToLower, jsIncludes]
  norm_num

/-- Fourth all-correct submission. -/
theorem engineChain_step3 : engineStepCorrect (engineChain 3) = engineChain 4 := by
  simp [engineStepCorrect, engineSubmit, engineChain, engineQEasy, engineQAdv, mkQuestion,
    engineRawQ, engineAns, validateAnswer, jsTrim, jsToLower, jsIncludes]
  norm_num

/-- Fifth all-correct submission. -/
theorem engineChain_step4 : engineStepCorrect (engineChain 4) = engineChain 5 := by
  simp [engineStepCorrect, engineSubmit, engineChain, engineQEasy, engineQAdv, mkQuestion,
    engineRawQ, engineAns, validateAnswer, jsTrim, jsToLower, jsIncludes]
  norm_num

/-- Sixth all-correct submission. -/
theorem engineChain_step5 : engineStepCorrect (engineChain 5) = engineChain 6 := by
  simp [engineStepCorrect, engineSubmit, engineChain, engineQEasy, engineQAdv, mkQuestion,
    engineRawQ, engineAns, validateAnswer, jsTrim, jsToLower, jsIncludes]
  norm_num

/-- Seventh all-correct submission. -/
theorem engineChain_step6 : engineStepCorrect (engineChain 6) = engineChain 7 := by
  simp [engineStepCorrect, engineSubmit, engineChain, engineQEasy, engineQAdv, mkQuestion,
    engineRawQ, engineAns, validateAnswer, jsTrim, jsToLower, jsIncludes]
  norm_num

/-- Eighth all-correct submission. -/
theorem engineChain_step7 : engineStepCorrect (engineChain 7) = engineChain 8 := by
  simp [engineStepCorrect, engineSubmit, engineChain, engineQEasy, engineQAdv, mkQuestion,
    engineRawQ, engineAns, validateAnswer, jsTrim, jsToLower, jsIncludes]
  norm_num

/-- Ninth all-correct submission. -/
theorem engineChain_step8 : engineStepCorrect (engineChain 8) = engineChain 9 := by
  simp [engineStepCorrect, engineSubmit, engineChain, engineQEasy, engineQAdv, mkQuestion,
    engineRawQ, engineAns, validateAnswer, jsTrim, jsToLower, jsIncludes]
  norm_num

/-- Tenth all-correct submission: the session completes. -/
theorem engineChain_step9 : engineStepCorrect (engineChain 9) = engineChain 10 := by
  simp [engineStepCorrect, engineSubmit, engineChain, engineQEasy, engineQAdv, mkQuestion,
    engineRawQ, engineAns, validateAnswer, jsTrim, jsToLower, jsIncludes]
  norm_num

/-- Ten all-correct submissions from a fresh session reach `engineChain 10`:
a completed session holding exactly 10 recorded answers. -/
theorem engineRun10_eq : engineRun10 = engineChain 10 := by
  rw [engineRun10, engineChain_one, engineChain_step1, engineChain_step2, engineChain_step3,
    engineChain_step4, engineChain_step5, engineChain_step6, engineChain_step7,
    engineChain_step8, engineChain_step9]

/-! ### Claim theorems -/

/-- C1 (amended): after every recorded verdict, evaluated before the next
item is issued, the engine does not move the tier by one step: if cumulative
accuracy exceeds 80% and the tier is not the highest it jumps directly to
`advanced`, if it is below 60% and the tier is not the lowest it jumps
directly to `easy`, and otherwise it holds; moreover the next item issued is
stamped with the *pre-adaptation* tier (the `generateQuestion` call reads the
stale `difficulty` captured by the closure), so the adapted tier first
applies to the item after next. -/
theorem difficulty_adaptation_extremes_and_stale_issue (s : EngineState) (q : Question)
    (answer : String) (t : ℚ) (o : EngineOracleOutcome) (raw : RawQuestion)
    (hq : s.currentQuestion = some q) (hne : jsTrim answer ≠ "") :
    (engineSubmit s answer t o raw).difficulty =
      (if (((s.correctAnswers + (if (validateAnswer q answer o).isCorrect = some true then 1 else 0) : Nat) : ℚ) / ((s.totalQuestions + 1 : Nat) : ℚ)) * 100 > 80 ∧ s.difficulty ≠ Difficulty.advanced
       then Difficulty.advanced
       else if (((s.correctAnswers + (if (validateAnswer q answer o).isCorrect = some true then 1 else 0) : Nat) : ℚ) / ((s.totalQuestions + 1 : Nat) : ℚ)) * 100 < 60 ∧ s.difficulty ≠ Difficulty.easy
       then Difficulty.easy
       else s.difficulty) ∧
    (s.totalQuestions + 1 < 10 →
      (engineSubmit s answer t o raw).currentQuestion =
        some (mkQuestion raw s.topic s.difficulty s.questionType)) := by
  constructor
  · simp only [engineSubmit, hq, if_neg hne]
    split <;> rfl
  · intro hlt
    simp only [engineSubmit, hq, if_neg hne]
    rw [if_neg (by omega : ¬ (s.totalQuestions + 1 ≥ 10))]

/-- C1 witness: a fresh easy-tier session, one correct verdict (accuracy
100%): the amended adaptation applies and the next question carries the
pre-adaptation easy tier. -/
theorem difficulty_adaptation_witness :
    (engineSubmit engineRun0 ("x = ±2") 0 EngineOracleOutcome.fetchError engineRawQ).currentQuestion =
      some (mkQuestion engineRawQ engineRun0.topic engineRun0.difficulty engineRun0.questionType) :=
  (difficulty_adaptation_extremes_and_stale_issue engineRun0 engineQEasy ("x = ±2") 0
    EngineOracleOutcome.fetchError engineRawQ (by decide) (by decide)).2 (by decide)

/-- C1 counterexample: from the easy tier, one all-correct verdict (cumulative
accuracy 100% > 80%) moves the tier straight to `advanced` — two steps, not
the single step to `medium` the claim asserts — and the next question issued
still carries the easy tier instead of the adapted one. -/
theorem difficulty_one_step_counterexample :
    (engineStepCorrect engineRun0).difficulty = Difficulty.advanced ∧
    specOneStepUp Difficulty.easy = Difficulty.medium ∧
    Difficulty.advanced ≠ Difficulty.medium ∧
    (engineStepCorrect engineRun0).currentQuestion = some engineQEasy ∧
    engineQEasy.difficulty = Difficulty.easy := by
  rw [engineChain_one]
  decide

/-- C2 (amended): the reported average time is not the running mean but the
halving fold `a₀ = 0, aₖ = (aₖ₋₁ + tₖ) / 2`: every recording submission (in
the practice engine and in the exam simulator) updates `averageTime` to
`(previousAverage + timeSpent) / 2`, preserving the invariant that the
reported value is `halvingAvg` of the recorded times. -/
theorem averageTime_halving_recurrence :
    (∀ (s : EngineState) (q : Question) (answer : String) (t : ℚ)
        (o : EngineOracleOutcome) (raw : RawQuestion),
      s.currentQuestion = some q → jsTrim answer ≠ "" →
      s.averageTime = halvingAvg (s.answers.map EngineAnswer.timeSpent) →
      (engineSubmit s answer t o raw).averageTime = (s.averageTime + t) / 2 ∧
      (engineSubmit s answer t o raw).averageTime =
        halvingAvg ((engineSubmit s answer t o raw).answers.map EngineAnswer.timeSpent)) ∧
    (∀ (s : ExamState) (q : ExamQuestion) (answer : String) (t : ℚ) (coin : Bool),
      s.phase ≠ ExamPhase.setup → s.questions.get? s.currentQuestionIndex = some q →
      jsTrim answer ≠ "" →
      s.averageTime = halvingAvg (s.answers.map ExamAnswer.timeSpent) →
      (examSubmit s answer t coin).averageTime = (s.averageTime + t) / 2 ∧
      (examSubmit s answer t coin).averageTime =
        halvingAvg ((examSubmit s answer t coin).answers.map ExamAnswer.timeSpent)) := by
  constructor
  · intro s q answer t o raw hq hne hinv
    have hred : (engineSubmit s answer t o raw).averageTime = (s.averageTime + t) / 2 ∧
        (engineSubmit s answer t o raw).answers = s.answers ++
          [{ questionId := q.id, answer := answer,
             isCorrect := (validateAnswer q answer o).isCorrect,
             timeSpent := t, difficulty := s.difficulty }] := by
      simp only [engineSubmit, hq, if_neg hne]
      split <;> exact ⟨rfl, rfl⟩
    refine ⟨hred.1, ?_⟩
    rw [hred.1, hred.2]
    simp only [List.map_append, List.map_cons, List.map_nil]
    rw [halvingAvg_append, hinv]
  · intro s q answer t coin hph hq hne hinv
    have hred : (examSubmit s answer t coin).averageTime = (s.averageTime + t) / 2 ∧
        (examSubmit s answer t coin).answers = s.answers ++
          [{ questionId := q.id, answer := answer, timeSpent := t,
             isCorrect := examIsCorrect q answer coin,
             marksObtained := if examIsCorrect q answer coin then q.marks else 0 }] := by
      simp only [examSubmit, if_neg hph, hq, if_neg hne]
      split <;> exact ⟨rfl, rfl⟩
    refine ⟨hred.1, ?_⟩
    rw [hred.1, hred.2]
    simp only [List.map_append, List.map_cons, List.map_nil]
    rw [halvingAvg_append, hinv]

/-- C2 witness: one 4-second attempt from a fresh session updates the average
to `(0 + 4) / 2`. -/
theorem averageTime_halving_witness :
    (engineSubmit engineRun0 ("x = ±2") 4 EngineOracleOutcome.fetchError engineRawQ).averageTime =
      (engineRun0.averageTime + 4) / 2 :=
  (averageTime_halving_recurrence.1 engineRun0 engineQEasy ("x = ±2") 4
    EngineOracleOutcome.fetchError engineRawQ (by decide) (by decide) (by decide)).1

/-- C2 counterexample: a session with a single recorded attempt of 4 seconds
reports average time 2, while the true running mean of the recorded times is
4 — the reported value is not the mean even for one attempt. -/
theorem averageTime_true_mean_counterexample :
    (engineSubmit engineRun0 ("x = ±2") 4 EngineOracleOutcome.fetchError engineRawQ).answers.map
        EngineAnswer.timeSpent = [4] ∧
    (engineSubmit engineRun0 ("x = ±2") 4 EngineOracleOutcome.fetchError engineRawQ).averageTime = 2 ∧
    specTrueMean [4] = 4 ∧
    (engineSubmit engineRun0 ("x = ±2") 4 EngineOracleOutcome.fetchError engineRawQ).averageTime ≠
      specTrueMean ((engineSubmit engineRun0 ("x = ±2") 4 EngineOracleOutcome.fetchError
        engineRawQ).answers.map EngineAnswer.timeSpent) := by
  refine ⟨?_, ?_, ?_, ?_⟩ <;>
    · simp [engineSubmit, engineRun0, engineStart, engineQEasy, mkQuestion, engineRawQ,
        validateAnswer, jsTrim, jsToLower, jsIncludes, specTrueMean]
      try norm_num

/-- C3 (amended): with the source's threshold of one prior conceptual step,
along a streak of 4 conceptual verdicts the remediation trigger holds at the
2nd verdict and *again* at the 3rd and 4th: the conceptual count is the
cumulative number of conceptual steps in the whole log and is never reset, so
the trigger fires at every conceptual verdict from the 2nd on. -/
theorem remediation_fires_each_later_conceptual (s : WBState) (r₁ r₂ r₃ r₄ : VLMResult)
    (h0 : conceptualCount s.steps = 0)
    (h1 : r₁.errorType = some ErrorKind.conceptual)
    (h2 : r₂.errorType = some ErrorKind.conceptual)
    (h3 : r₃.errorType = some ErrorKind.conceptual)
    (h4 : r₄.errorType = some ErrorKind.conceptual) :
    remediationFires s (VLMOutcome.ok r₁) = false ∧
    remediationFires (handleHandwrittenStepSubmit s (VLMOutcome.ok r₁)) (VLMOutcome.ok r₂) = true ∧
    remediationFires (handleHandwrittenStepSubmit (handleHandwrittenStepSubmit s
      (VLMOutcome.ok r₁)) (VLMOutcome.ok r₂)) (VLMOutcome.ok r₃) = true ∧
    remediationFires (handleHandwrittenStepSubmit (handleHandwrittenStepSubmit
      (handleHandwrittenStepSubmit s (VLMOutcome.ok r₁)) (VLMOutcome.ok r₂))
      (VLMOutcome.ok r₃)) (VLMOutcome.ok r₄) = true := by
  have hcount : ∀ (w : WBState) (r : VLMResult), r.errorType = some ErrorKind.conceptual →
      conceptualCount (handleHandwrittenStepSubmit w (VLMOutcome.ok r)).steps =
        conceptualCount w.steps + 1 := by
    intro w r hr
    simp only [handleHandwrittenStepSubmit, vlmResolve]
    rw [conceptualCount_append]
    simp [isConceptualStep, hr]
  refine ⟨?_, ?_, ?_, ?_⟩
  · simp [remediationFires, vlmResolve, h0]
  · simp only [remediationFires, vlmResolve, decide_eq_true_eq]
    exact ⟨h2, by rw [hcount s r₁ h1, h0]⟩
  · simp only [remediationFires, vlmResolve, decide_eq_true_eq]
    refine ⟨h3, ?_⟩
    rw [hcount _ r₂ h2, hcount s r₁ h1, h0]
    omega
  · simp only [remediationFires, vlmResolve, decide_eq_true_eq]
    refine ⟨h4, ?_⟩
    rw [hcount _ r₃ h3, hcount _ r₂ h2, hcount s r₁ h1, h0]
    omega

/-- C3 witness: a concrete streak of conceptual verdicts on an empty log —
the trigger holds at the 2nd verdict. -/
theorem remediation_fires_witness :
    remediationFires (handleHandwrittenStepSubmit wbConceptual (VLMOutcome.ok vlmConceptual))
      (VLMOutcome.ok vlmConceptual) = true :=
  (remediation_fires_each_later_conceptual wbConceptual vlmConceptual vlmConceptual
    vlmConceptual vlmConceptual (by decide) (by decide) (by decide) (by decide) (by decide)).2.1

/-- C3 counterexample: along a streak of 4 conceptual verdicts the trigger
condition also holds at the 3rd and 4th verdicts (the counter is never
reset), contradicting the claim that it fires exactly once, at the 2nd. -/
theorem remediation_one_shot_counterexample :
    remediationFires (handleHandwrittenStepSubmit (handleHandwrittenStepSubmit wbConceptual
      (VLMOutcome.ok vlmConceptual)) (VLMOutcome.ok vlmConceptual))
      (VLMOutcome.ok vlmConceptual) = true ∧
    remediationFires (handleHandwrittenStepSubmit (handleHandwrittenStepSubmit
      (handleHandwrittenStepSubmit wbConceptual (VLMOutcome.ok vlmConceptual))
      (VLMOutcome.ok vlmConceptual)) (VLMOutcome.ok vlmConceptual))
      (VLMOutcome.ok vlmConceptual) = true := by
  decide

/-- C4 (amended): the remediation count does not discount low-trust verdicts:
the source tracks no confidence at all, so a conceptual verdict produced by
the heuristic path (`apiFailure`, routed to the local `validateStep`
fallback) is appended to the log and counts toward the trigger exactly like
an oracle one — a later conceptual verdict then fires the trigger. -/
theorem conceptual_streak_ignores_confidence (s : WBState) (o : AIOutcome) (r : VLMResult)
    (hne : jsTrim s.currentStep ≠ "")
    (hconc : (pipelineVerdict s.currentStep s.question (s.steps.map Step.content) o).errorType =
      some ErrorKind.conceptual)
    (hr : r.errorType = some ErrorKind.conceptual) :
    confidenceOf AIOutcome.apiFailure = Confidence.heuristic ∧
    remediationFires (handleStepValidation s o) (VLMOutcome.ok r) = true := by
  refine ⟨rfl, ?_⟩
  simp only [remediationFires, vlmResolve, decide_eq_true_eq]
  refine ⟨hr, ?_⟩
  simp only [handleStepValidation, if_neg hne]
  rw [conceptualCount_append]
  simp [isConceptualStep, hconc]

/-- C4 witness: the conceptual-error step of the worked example, judged by
the heuristic fallback after an AI failure, counts toward the trigger. -/
theorem conceptual_streak_confidence_witness :
    remediationFires (handleStepValidation wbConceptual AIOutcome.apiFailure)
      (VLMOutcome.ok vlmConceptual) = true :=
  (conceptual_streak_ignores_confidence wbConceptual AIOutcome.apiFailure vlmConceptual
    (by decide) (by decide) (by decide)).2

/-- C4 counterexample: after a *single* heuristic-confidence conceptual
verdict (AI failure, local `validateStep` classifies the step as conceptual),
one oracle conceptual verdict fires the trigger.  Under the claim the
heuristic verdict must not count and must reset the streak to zero, so this
single oracle verdict would be a streak of 1 < 2 and the trigger must not
fire — the source fires it. -/
theorem heuristic_conceptual_counts_counterexample :
    confidenceOf AIOutcome.apiFailure = Confidence.heuristic ∧
    (pipelineVerdict wbConceptual.currentStep wbConceptual.question []
      AIOutcome.apiFailure).errorType = some ErrorKind.conceptual ∧
    conceptualCount (handleStepValidation wbConceptual AIOutcome.apiFailure).steps = 1 ∧
    remediationFires (handleStepValidation wbConceptual AIOutcome.apiFailure)
      (VLMOutcome.ok vlmConceptual) = true := by
  decide

/-- C5 (amended): on every Judgment Client *failure* (fetch error, timeout,
unreachability, unparseable response text) both pipelines recover locally and
produce a verdict with boolean correctness, and the whiteboard pipeline is
total; but the practice engine's success path returns the parsed payload
unchecked, so this theorem covers the failure outcomes (see the
counterexample for a parsed payload without a boolean `isCorrect`). -/
theorem verdict_correctness_totality :
    (∀ (q : Question) (a : String),
      (validateAnswer q a EngineOracleOutcome.fetchError).isCorrect.isSome ∧
      (validateAnswer q a EngineOracleOutcome.parseError).isCorrect.isSome) ∧
    (∀ (step question : String) (prev : List String) (o : AIOutcome),
      (pipelineVerdict step question prev o).isCorrect.isSome) := by
  constructor
  · intro q a
    constructor <;> simp [validateAnswer]
  · intro step question prev o
    cases o with
    | apiFailure =>
      simp only [pipelineVerdict, validateStepWithAI, validateStep]
      split_ifs <;> simp
    | parsedJson ic et fb en => simp [pipelineVerdict, validateStepWithAI]
    | parseFailed text => simp [pipelineVerdict, validateStepWithAI]

/-- C5 counterexample: a Judgment Client response that is well-formed JSON
but lacks an `isCorrect` field (e.g. `{}`) is returned by the practice
engine's `validateAnswer` as-is: the verdict's correctness is unset
(`undefined`), not a boolean — contradicting the claim that every outcome,
including a malformed payload, yields boolean correctness. -/
theorem verdict_unset_on_parsed_payload_counterexample :
    (validateAnswer engineQEasy ("x") (EngineOracleOutcome.parsed
      { isCorrect := none, feedback := none, explanation := none })).isCorrect = none := by
  decide

/-- C6 (amended): the fallback validation is deterministic for the practice
engine (identical verdicts across both failure modes) and, in the exam
simulator, for MCQ items and for written answers containing `correct`; for
any other written answer the exam verdict equals the `Math.random()` draw, so
it is not a function of the item and attempt alone. -/
theorem fallback_determinism_scope :
    (∀ (q : Question) (a : String),
      validateAnswer q a EngineOracleOutcome.fetchError =
        validateAnswer q a EngineOracleOutcome.parseError) ∧
    (∀ (q : ExamQuestion) (a : String) (c₁ c₂ : Bool),
      (q.qtype = QType.mcq ∨ jsIncludes (jsToLower a) ("correct") = true) →
      examIsCorrect q a c₁ = examIsCorrect q a c₂) := by
  constructor
  · intro q a
    rfl
  · intro q a c₁ c₂ h
    rcases h with h | h
    · simp [examIsCorrect, h]
    · by_cases hq : q.qtype = QType.mcq
      · simp [examIsCorrect, hq]
      · simp [examIsCorrect, hq, h]

/-- C6 witness: a written answer containing `correct` is judged the same under
both random draws. -/
theorem fallback_determinism_witness :
    examIsCorrect examWrittenQ ("the correct answer is 3") true =
      examIsCorrect examWrittenQ ("the correct answer is 3") false :=
  fallback_determinism_scope.2 examWrittenQ ("the correct answer is 3") true false
    (Or.inr (by decide))

/-- C6 counterexample: for a written exam item and an answer not containing
`correct`, two evaluations on the same item and attempt give different
verdicts (the verdict is the random draw) — the fallback is not
deterministic. -/
theorem written_fallback_random_counterexample :
    examIsCorrect examWrittenQ ("x = 3") true ≠ examIsCorrect examWrittenQ ("x = 3") false := by
  decide

/-- C7 (amended): an empty (whitespace-only) attempt is rejected before any
external call, but *without producing any verdict*: the submission handlers
return the state unchanged (independently of the judgment outcome, i.e. no
external call is consulted), record nothing, and no correctness=false /
error-kind=syntax verdict is created.  The below-minimal-length syntax
verdict exists only in the whiteboard's local `validateStep`, which runs
after a *failed* external call on a nonempty attempt. -/
theorem empty_attempt_no_verdict_no_call :
    (∀ (s : WBState) (o₁ o₂ : AIOutcome), jsTrim s.currentStep = "" →
      handleStepValidation s o₁ = s ∧ handleStepValidation s o₁ = handleStepValidation s o₂) ∧
    (∀ (s : EngineState) (a : String) (t : ℚ) (o : EngineOracleOutcome) (raw : RawQuestion),
      jsTrim a = "" → engineSubmit s a t o raw = s) ∧
    (∀ (step questionText : String), jsIncludes questionText ("2x = 7 - (4)^2 + 16") = false →
      step.length < 3 →
      validateStep step questionText =
        { isCorrect := some false, errorType := some ErrorKind.syntaxError,
          feedback := some ("Please write a more complete step showing your work."),
          encouragement := some ("Take your time and show each calculation clearly.") }) := by
  refine ⟨?_, ?_, ?_⟩
  · intro s o₁ o₂ h
    constructor <;> simp [handleStepValidation, h]
  · intro s a t o raw h
    cases hcq : s.currentQuestion <;> simp [engineSubmit, hcq, h]
  · intro step questionText hmagic hlen
    simp [validateStep, hmagic, hlen]

/-- C7 witness: the local fallback classifies the 2-character step `2x` on a
generic question as a syntax error. -/
theorem empty_attempt_witness :
    validateStep ("2x") ("Solve: 2x + 3 = 7") =
      { isCorrect := some false, errorType := some ErrorKind.syntaxError,
        feedback := some ("Please write a more complete step showing your work."),
        encouragement := some ("Take your time and show each calculation clearly.") } :=
  empty_attempt_no_verdict_no_call.2.2 ("2x") ("Solve: 2x + 3 = 7") (by decide) (by decide)

/-- C7 counterexample: submitting a whitespace-only attempt leaves the state
unchanged — the step log stays empty and no verdict (in particular no
correctness=false / error-kind=syntax / confidence=heuristic verdict) is
produced, in both the whiteboard and the practice engine. -/
theorem empty_attempt_syntax_verdict_counterexample :
    handleStepValidation wbBlankStep (AIOutcome.parsedJson (some true) none none none) =
      wbBlankStep ∧
    wbBlankStep.steps.length = 0 ∧
    engineSubmit engineRun0 (" ") 5 EngineOracleOutcome.fetchError engineRawQ = engineRun0 := by
  decide

/-- C8 (amended): `submitAnswer` never inspects the session phase: invoked
after the session has completed (the current question, session object and
start time are all still set), a non-empty attempt is *not* rejected — it is
validated and recorded, the log grows by one entry, the counters advance, and
the phase stays completed. -/
theorem submit_after_completed_records (s : EngineState) (q : Question) (a : String) (t : ℚ)
    (o : EngineOracleOutcome) (raw : RawQuestion)
    (hph : s.phase = EnginePhase.completed) (hq : s.currentQuestion = some q)
    (hne : jsTrim a ≠ "") :
    (engineSubmit s a t o raw).answers.length = s.answers.length + 1 ∧
    (engineSubmit s a t o raw).totalQuestions = s.totalQuestions + 1 ∧
    (engineSubmit s a t o raw).phase = EnginePhase.completed := by
  simp only [engineSubmit, hq, if_neg hne]
  split <;> simp [hph]

/-- C8 witness: after the reachable completed 10-answer session, one more
submission appends an 11th record. -/
theorem submit_after_completed_witness :
    (engineSubmit engineRun10 ("x = ±2") 0 EngineOracleOutcome.fetchError
      engineRawQ).totalQuestions = engineRun10.totalQuestions + 1 :=
  (submit_after_completed_records engineRun10 engineQAdv ("x = ±2") 0
    EngineOracleOutcome.fetchError engineRawQ
    (by rw [engineRun10_eq]; decide) (by rw [engineRun10_eq]; decide) (by decide)).2.1

/-- C8 counterexample: `engineRun10` is a session reachable by ten valid
submissions and is completed with 10 recorded answers; submitting a
previously-valid attempt once more is not rejected with an invalid-state
error — it appends an 11th record, so side effects are applied. -/
theorem submit_after_completed_counterexample :
    engineRun10.phase = EnginePhase.completed ∧
    engineRun10.answers.length = 10 ∧
    (engineStepCorrect engineRun10).answers.length = 11 := by
  rw [engineRun10_eq]
  refine ⟨by decide, by decide, ?_⟩
  simp [engineStepCorrect, engineSubmit, engineChain, engineQEasy, engineQAdv, mkQuestion,
    engineRawQ, engineAns, validateAnswer, jsTrim, jsToLower, jsIncludes]

/-- C9: along every execution of the exam timer, the remaining time is
non-increasing while the session is active, unchanged while it is paused or
not in the exam phase, never negative, and the tick that forces the
transition to completed stores exactly zero. -/
theorem timer_time_remaining_behaviour (s : ExamState) (h : 0 ≤ s.timeRemaining) :
    (timerTick s).timeRemaining ≤ s.timeRemaining ∧
    0 ≤ (timerTick s).timeRemaining ∧
    (s.isPaused = true → timerTick s = s) ∧
    (s.phase ≠ ExamPhase.exam → timerTick s = s) ∧
    ((timerTick s).phase = ExamPhase.completed →
      s.phase = ExamPhase.completed ∨ (timerTick s).timeRemaining = 0) := by
  unfold timerTick
  split_ifs with h1 h2
  · dsimp only
    refine ⟨h1.2.1.le, le_refl 0, ?_, ?_, fun _ => Or.inr rfl⟩
    · intro hp
      rw [h1.2.2] at hp
      exact absurd hp (by simp)
    · intro hp
      exact absurd h1.1 hp
  · dsimp only
    refine ⟨by omega, by omega, ?_, ?_, ?_⟩
    · intro hp
      rw [h1.2.2] at hp
      exact absurd hp (by simp)
    · intro hp
      exact absurd h1.1 hp
    · intro hp
      exact Or.inl hp
  · exact ⟨le_refl _, h, fun _ => rfl, fun _ => rfl, fun hp => Or.inl hp⟩

/-- C9 witness: one tick of a running 30-minute exam does not increase the
remaining time. -/
theorem timer_time_remaining_witness :
    (timerTick examDemo).timeRemaining ≤ examDemo.timeRemaining :=
  (timer_time_remaining_behaviour examDemo (by decide)).1

/-- C10: from any practicing state with at most 9 recorded items, a recording
submission adds exactly one item, caps the total at 10, and the submission
recording the 10th verdict transitions the session to completed and issues no
further item (the current question is left untouched); otherwise the session
stays practicing with at most 9 items.  `engineSubmit` never reads the
selected topic's advertised `questionCount` — the cap is the literal 10. -/
theorem ten_item_cap (s : EngineState) (q : Question) (a : String) (t : ℚ)
    (o : EngineOracleOutcome) (raw : RawQuestion)
    (hph : s.phase = EnginePhase.practicing) (hc : s.totalQuestions ≤ 9)
    (hq : s.currentQuestion = some q) (hne : jsTrim a ≠ "") :
    (engineSubmit s a t o raw).totalQuestions = s.totalQuestions + 1 ∧
    (engineSubmit s a t o raw).totalQuestions ≤ 10 ∧
    ((engineSubmit s a t o raw).totalQuestions = 10 →
      (engineSubmit s a t o raw).phase = EnginePhase.completed ∧
      (engineSubmit s a t o raw).currentQuestion = s.currentQuestion) ∧
    ((engineSubmit s a t o raw).totalQuestions < 10 →
      (engineSubmit s a t o raw).phase = EnginePhase.practicing ∧
      (engineSubmit s a t o raw).totalQuestions ≤ 9) := by
  simp only [engineSubmit, hq, if_neg hne]
  split
  · rename_i hge
    dsimp only
    refine ⟨rfl, by omega, fun _ => ⟨rfl, rfl⟩, fun hlt => absurd hge (by omega)⟩
  · rename_i hge
    dsimp only
    refine ⟨rfl, by omega, fun heq => absurd heq (by omega), fun _ => ⟨hph, by omega⟩⟩

/-- C10 witness: the first submission of a fresh session records exactly one
item. -/
theorem ten_item_cap_witness :
    (engineSubmit engineRun0 ("x = ±2") 0 EngineOracleOutcome.fetchError
      engineRawQ).totalQuestions = engineRun0.totalQuestions + 1 :=
  (ten_item_cap engineRun0 engineQEasy ("x = ±2") 0 EngineOracleOutcome.fetchError engineRawQ
    (by decide) (by decide) (by decide) (by decide)).1

end Aristotle
